import Mathlib

/-!
Shallow embedding of the `bank` service layer (`src/bank/service.rs`).

Monetary amounts (`BigDecimal` in the source: arbitrary-precision decimals)
are modelled as rationals.  Repository state is modelled explicitly as a
`BankState` record of entity lists; each repository call is a function on
that state returning `Except ErrorKind`, and the diesel
`conn.transaction(|| ...)` unit-of-work is modelled by the convention that
an `.error` result carries no new state, so the caller keeps the
pre-transaction state (rollback).  The one deliberate exception is
`withdraw`, whose source discards the transaction result; that behaviour is
reproduced faithfully.
-/

namespace Bank

/-- Entity identifier (`uuid::Uuid` in the source). -/
abbrev Id := Nat

/-- Monetary amount: `BigDecimal` (exact decimal arithmetic) modelled as `ℚ`. -/
abbrev Money := ℚ

/-- Modelled from the spec: the `Date` type and its `DateExt` helpers are not
among the provided sources.  Per the spec, `Date` supports "advance by N
months" arithmetic and ordering comparisons; a calendar date orders
lexicographically by (year, month) and then day, so it is modelled as a
linear month count plus a day of month.  `increment_date_by_months` changes
only the month component. -/
structure Date where
  months : Int
  day : Int
deriving DecidableEq

/-- `DateExt::increment_date_by_months`: advance by `n` months, same day. -/
def Date.incrementByMonths (d : Date) (n : Nat) : Date :=
  { d with months := d.months + n }

/-- Calendar-date strict order (`Date::gt`/`lt` in the source), lexicographic. -/
def Date.ltb (a b : Date) : Bool :=
  if a.months < b.months then true
  else if b.months < a.months then false
  else decide (a.day < b.day)

/-- `BankTransactionType` from `bank_transaction` module. -/
inductive BankTransactionType where
  | Deposit
  | Withdraw
  | PrincipalRepayment
  | InterestRepayment
deriving DecidableEq

/-- `LoanState` from the `loan` module. -/
inductive LoanState where
  | Active
  | Paid
deriving DecidableEq

/-- `Account`: id, owner, balance (`amount` field, as in the source). -/
structure Account where
  id : Id
  user_id : Id
  amount : Money
deriving DecidableEq

/-- `Vault`: named pool of funds. -/
structure Vault where
  name : String
  balance : Money
deriving DecidableEq

/-- `BankTransaction`: immutable audit record of a vault/account movement. -/
structure BankTransaction where
  id : Id
  account_id : Id
  vault_name : String
  transaction_type : BankTransactionType
  amount : Money
deriving DecidableEq

/-- `AccountTransaction`: immutable record of a peer transfer. -/
structure AccountTransaction where
  id : Id
  sender_id : Id
  receiver_id : Id
  amount : Money
deriving DecidableEq

/-- `Loan`.  `interest_rate` stores the annual rate as a decimal fraction;
the source calls an accessor `loan.interest_rate()` whose defining module is
not among the provided sources, modelled from the spec as returning the
stored annual rate. -/
structure Loan where
  id : Id
  user_id : Id
  vault_name : String
  orig_principal : Money
  balance : Money
  accrued_interest : Money
  interest_rate : Money
  payment_frequency : Nat
  issue_date : Date
  maturity_date : Date
  state : LoanState
deriving DecidableEq

/-- `LoanPayment`: a scheduled payment; the two transaction ids are set once
the payment is settled. -/
structure LoanPayment where
  id : Id
  loan_id : Id
  principal_due : Money
  interest_due : Money
  due_date : Date
  principal_transaction_id : Option Id
  interest_transaction_id : Option Id
deriving DecidableEq

/-- Service error kinds (`error::ErrorKind`); the `InvalidDate` message
string and the wrapped storage error payloads are dropped. -/
inductive ErrorKind where
  | InadequateFunds
  | InvalidDate
  | RecordNotFound
deriving DecidableEq

/-- The persisted state all repositories act on.  `next_id` supplies fresh
ids for newly created rows. -/
structure BankState where
  accounts : List Account
  vaults : List Vault
  bank_transactions : List BankTransaction
  account_transactions : List AccountTransaction
  loans : List Loan
  loan_payments : List LoanPayment
  next_id : Id
deriving DecidableEq

/-- Resulting state of a service call: on error the unit of work rolls back,
leaving the initial state. -/
def stateAfter {α : Type} (st : BankState) (r : Except ErrorKind (α × BankState)) :
    BankState :=
  match r with
  | .ok (_, st2) => st2
  | .error _ => st

/-! ### Repository operations (modelled from the spec, §6)

The repository implementations (`account::Repo`, `vault::Repo`, `loan::Repo`,
`loan::PaymentRepo`, ...) are not among the provided sources; each method is
modelled from its spec contract: `find_by_id` returns `RecordNotFound` when
no row matches, `increment`/`decrement` add/subtract the amount and return
the updated row. -/

def findAccount (st : BankState) (account_id : Id) : Option Account :=
  st.accounts.find? (fun a => a.id == account_id)

def findVault (st : BankState) (vault_name : String) : Option Vault :=
  st.vaults.find? (fun v => v.name == vault_name)

def findLoan (st : BankState) (loan_id : Id) : Option Loan :=
  st.loans.find? (fun l => l.id == loan_id)

def findPaymentById (st : BankState) (payment_id : Id) : Option LoanPayment :=
  st.loan_payments.find? (fun p => p.id == payment_id)

/-- `AccountRepo::increment`. -/
def accountIncrement (st : BankState) (account_id : Id) (amount : Money) :
    Except ErrorKind (Account × BankState) :=
  match findAccount st account_id with
  | none => .error .RecordNotFound
  | some a =>
    let a2 : Account := { a with amount := a.amount + amount }
    .ok (a2, { st with
      accounts := st.accounts.map (fun b =>
        if b.id == account_id then { b with amount := b.amount + amount } else b) })

/-- `AccountRepo::decrement`. -/
def accountDecrement (st : BankState) (account_id : Id) (amount : Money) :
    Except ErrorKind (Account × BankState) :=
  match findAccount st account_id with
  | none => .error .RecordNotFound
  | some a =>
    let a2 : Account := { a with amount := a.amount - amount }
    .ok (a2, { st with
      accounts := st.accounts.map (fun b =>
        if b.id == account_id then { b with amount := b.amount - amount } else b) })

/-- `VaultRepo::increment`. -/
def vaultIncrement (st : BankState) (vault_name : String) (amount : Money) :
    Except ErrorKind BankState :=
  match findVault st vault_name with
  | none => .error .RecordNotFound
  | some _ =>
    .ok { st with
      vaults := st.vaults.map (fun v =>
        if v.name == vault_name then { v with balance := v.balance + amount } else v) }

/-- `VaultRepo::decrement`. -/
def vaultDecrement (st : BankState) (vault_name : String) (amount : Money) :
    Except ErrorKind BankState :=
  match findVault st vault_name with
  | none => .error .RecordNotFound
  | some _ =>
    .ok { st with
      vaults := st.vaults.map (fun v =>
        if v.name == vault_name then { v with balance := v.balance - amount } else v) }

/-- `LoanRepo::decrement`: subtract from the loan balance, return the row. -/
def loanDecrement (st : BankState) (loan_id : Id) (amount : Money) :
    Except ErrorKind (Loan × BankState) :=
  match findLoan st loan_id with
  | none => .error .RecordNotFound
  | some l =>
    let l2 : Loan := { l with balance := l.balance - amount }
    .ok (l2, { st with
      loans := st.loans.map (fun m =>
        if m.id == loan_id then { m with balance := m.balance - amount } else m) })

/-- `LoanRepo::set_accrued_interest`. -/
def loanSetAccruedInterest (st : BankState) (loan_id : Id) (amount : Money) :
    Except ErrorKind (Loan × BankState) :=
  match findLoan st loan_id with
  | none => .error .RecordNotFound
  | some l =>
    let l2 : Loan := { l with accrued_interest := amount }
    .ok (l2, { st with
      loans := st.loans.map (fun m =>
        if m.id == loan_id then { m with accrued_interest := amount } else m) })

/-- `LoanRepo::set_state`. -/
def loanSetState (st : BankState) (loan_id : Id) (s : LoanState) :
    Except ErrorKind (Loan × BankState) :=
  match findLoan st loan_id with
  | none => .error .RecordNotFound
  | some l =>
    let l2 : Loan := { l with state := s }
    .ok (l2, { st with
      loans := st.loans.map (fun m =>
        if m.id == loan_id then { m with state := s } else m) })

/-- `LoanPaymentRepo::set_dues`. -/
def paymentSetDues (st : BankState) (payment_id : Id)
    (principal interest : Money) : Except ErrorKind (LoanPayment × BankState) :=
  match findPaymentById st payment_id with
  | none => .error .RecordNotFound
  | some p =>
    let p2 : LoanPayment := { p with principal_due := principal, interest_due := interest }
    .ok (p2, { st with
      loan_payments := st.loan_payments.map (fun q =>
        if q.id == payment_id then
          { q with principal_due := principal, interest_due := interest }
        else q) })

/-- `LoanPaymentRepo::set_transaction_ids`: stamp the payment with the two
bank-transaction ids, marking it settled. -/
def paymentSetTransactionIds (st : BankState) (payment_id : Id)
    (ptid itid : Id) : Except ErrorKind (LoanPayment × BankState) :=
  match findPaymentById st payment_id with
  | none => .error .RecordNotFound
  | some p =>
    let p2 : LoanPayment := { p with
      principal_transaction_id := some ptid, interest_transaction_id := some itid }
    .ok (p2, { st with
      loan_payments := st.loan_payments.map (fun q =>
        if q.id == payment_id then
          { q with principal_transaction_id := some ptid,
                   interest_transaction_id := some itid }
        else q) })

/-- Modelled from the spec: `LoanPaymentRepo::find_by_id(loan_id)` as used by
`get_next_loan_payment` looks up the loan's scheduled payment by the loan's
id (§6 gives its parameter as `loan_id`); the repository implementation is
not among the provided sources. -/
def findPaymentByLoan (st : BankState) (loan_id : Id) : Option LoanPayment :=
  st.loan_payments.find? (fun p => p.loan_id == loan_id)

/-- Modelled from the spec: `LoanPaymentRepo::find_last_paid(loan_id)` —
the most recent payment of the loan already stamped with transaction ids
(i.e. settled); the implementation is not among the provided sources.  The
service immediately converts the result to an `Option` via `.ok()`. -/
def find_last_paid (st : BankState) (loan_id : Id) : Option LoanPayment :=
  (st.loan_payments.filter
    (fun p => p.loan_id == loan_id && p.principal_transaction_id.isSome)).getLast?

/-! ### Service operations (`Service` impl, `src/bank/service.rs`) -/

/-- `Service::deposit` (service.rs:64): inside one transaction, create a
`Deposit` bank transaction, increment the account, increment the vault;
return the updated account. -/
def deposit (st : BankState) (account_id : Id) (vault_name : String)
    (amount : Money) : Except ErrorKind (Account × BankState) :=
  let txn : BankTransaction :=
    { id := st.next_id, account_id := account_id, vault_name := vault_name,
      transaction_type := .Deposit, amount := amount }
  let st1 : BankState :=
    { st with bank_transactions := st.bank_transactions ++ [txn],
              next_id := st.next_id + 1 }
  match accountIncrement st1 account_id amount with
  | .error e => .error e
  | .ok (account, st2) =>
    match vaultIncrement st2 vault_name amount with
    | .error e => .error e
    | .ok st3 => .ok (account, st3)

/-- The closure passed to `conn.transaction` inside `Service::withdraw`
(service.rs:88-100): create a `Withdraw` bank transaction, decrement the
account, decrement the vault. -/
def withdrawScope (st : BankState) (account_id : Id) (vault_name : String)
    (amount : Money) : Except ErrorKind (Account × BankState) :=
  let txn : BankTransaction :=
    { id := st.next_id, account_id := account_id, vault_name := vault_name,
      transaction_type := .Withdraw, amount := amount }
  let st1 : BankState :=
    { st with bank_transactions := st.bank_transactions ++ [txn],
              next_id := st.next_id + 1 }
  match accountDecrement st1 account_id amount with
  | .error e => .error e
  | .ok (account, st2) =>
    match vaultDecrement st2 vault_name amount with
    | .error e => .error e
    | .ok st3 => .ok (account, st3)

/-- `Service::withdraw` (service.rs:81): fails with `InadequateFunds` when
the balance is below `amount`, before any write.  Otherwise it runs the
transactional scope — and, exactly as in the source (the `conn.transaction`
result at service.rs:88-100 is discarded with a `;`), a failure of the scope
rolls the state back but is NOT propagated: the function still returns
`Ok` with the stale pre-transaction account. -/
def withdraw (st : BankState) (account_id : Id) (vault_name : String)
    (amount : Money) : Except ErrorKind (Account × BankState) :=
  match findAccount st account_id with
  | none => .error .RecordNotFound
  | some account =>
    if account.amount < amount then .error .InadequateFunds
    else
      match withdrawScope st account_id vault_name amount with
      | .ok (account2, st2) => .ok (account2, st2)
      | .error _ => .ok (account, st)

/-- `Service::send_funds` (service.rs:105): fails with `InadequateFunds`
when the sender balance is below `amount`; otherwise, inside one
transaction, create an `AccountTransaction`, increment the receiver,
decrement the sender. -/
def send_funds (st : BankState) (sender_id receiver_id : Id) (amount : Money) :
    Except ErrorKind (AccountTransaction × BankState) :=
  match findAccount st sender_id with
  | none => .error .RecordNotFound
  | some sender_account =>
    if sender_account.amount < amount then .error .InadequateFunds
    else
      let txn : AccountTransaction :=
        { id := st.next_id, sender_id := sender_id, receiver_id := receiver_id,
          amount := amount }
      let st1 : BankState :=
        { st with account_transactions := st.account_transactions ++ [txn],
                  next_id := st.next_id + 1 }
      match accountIncrement st1 receiver_id amount with
      | .error e => .error e
      | .ok (_, st2) =>
        match accountDecrement st2 sender_id amount with
        | .error e => .error e
        | .ok (_, st3) => .ok (txn, st3)

/-- `Service::disburse_loan` (service.rs:131): inside one transaction,
decrement the loan's vault by `orig_principal` and increment the borrower's
account by the same amount.  No `BankTransaction` is created. -/
def disburse_loan (st : BankState) (loan : Loan) (account_id : Id) :
    Except ErrorKind (Unit × BankState) :=
  match vaultDecrement st loan.vault_name loan.orig_principal with
  | .error e => .error e
  | .ok st1 =>
    match accountIncrement st1 account_id loan.orig_principal with
    | .error e => .error e
    | .ok (_, st2) => .ok ((), st2)

/-- `Service::create_next_loan_payment` (service.rs:144).  `principalDue`
stands for the loan's amortization formula `loan.principal_due(date)` (an
external capability of `Loan`, not among the provided sources; the spec
treats it as a black box) and `today` for `calendar.current_date()`. -/
def create_next_loan_payment (principalDue : Loan → Date → Money)
    (today : Date) (st : BankState) (loan : Loan) :
    Except ErrorKind (LoanPayment × BankState) :=
  let previous_payment := find_last_paid st loan.id
  let principal_due := principalDue loan today
  let interest_due := loan.accrued_interest
  let num_months := loan.payment_frequency
  let due_date : Date :=
    match previous_payment with
    | some prev => prev.due_date.incrementByMonths num_months
    | none => loan.issue_date.incrementByMonths num_months
  if Date.ltb loan.maturity_date due_date then
    .error .InvalidDate
  else
    let payment : LoanPayment :=
      { id := st.next_id, loan_id := loan.id, principal_due := principal_due,
        interest_due := interest_due, due_date := due_date,
        principal_transaction_id := none, interest_transaction_id := none }
    .ok (payment,
      { st with loan_payments := st.loan_payments ++ [payment],
                next_id := st.next_id + 1 })

/-- `Service::update_loan_payment` (service.rs:190): recompute and persist
the dues of an existing payment record. -/
def update_loan_payment (principalDue : Loan → Date → Money) (today : Date)
    (st : BankState) (loan : Loan) (loan_payment_id : Id) :
    Except ErrorKind (LoanPayment × BankState) :=
  paymentSetDues st loan_payment_id (principalDue loan today) loan.accrued_interest

/-- `Service::get_next_loan_payment` (service.rs:178): if no payment exists
for the loan, delegate to `create_next_loan_payment`; otherwise refresh the
existing payment's dues via `update_loan_payment`. -/
def get_next_loan_payment (principalDue : Loan → Date → Money) (today : Date)
    (st : BankState) (loan : Loan) : Except ErrorKind (LoanPayment × BankState) :=
  match findPaymentByLoan st loan.id with
  | none => create_next_loan_payment principalDue today st loan
  | some loan_payment =>
    update_loan_payment principalDue today st loan loan_payment.id

/-- `Service::accrue` (service.rs:197): accrued_interest =
balance × interest_rate / 12, persisted on the loan; returns the updated
loan row. -/
def accrue (st : BankState) (loan : Loan) : Except ErrorKind (Loan × BankState) :=
  let accrued_interest := loan.balance * loan.interest_rate / 12
  loanSetAccruedInterest st loan.id accrued_interest

/-- `Service::pay_loan_payment_due` (service.rs:204): load the payment, its
loan and the paying account (no sufficiency check on the account), then
inside one transaction create the `PrincipalRepayment` and
`InterestRepayment` bank transactions, decrement the account by
principal_due + interest_due, increment the loan's vault by the same total,
decrement the loan balance by the total, stamp the payment with the two
transaction ids, and set the loan state to `Paid` when the resulting
balance is zero. -/
def pay_loan_payment_due (st : BankState) (loan_payment_id account_id : Id) :
    Except ErrorKind (LoanPayment × BankState) :=
  match findPaymentById st loan_payment_id with
  | none => .error .RecordNotFound
  | some loan_payment =>
  match findLoan st loan_payment.loan_id with
  | none => .error .RecordNotFound
  | some loan =>
  match findAccount st account_id with
  | none => .error .RecordNotFound
  | some _account =>
    let ptxn : BankTransaction :=
      { id := st.next_id, account_id := account_id, vault_name := loan.vault_name,
        transaction_type := .PrincipalRepayment, amount := loan_payment.principal_due }
    let itxn : BankTransaction :=
      { id := st.next_id + 1, account_id := account_id, vault_name := loan.vault_name,
        transaction_type := .InterestRepayment, amount := loan_payment.interest_due }
    let st1 : BankState :=
      { st with bank_transactions := st.bank_transactions ++ [ptxn, itxn],
                next_id := st.next_id + 2 }
    let total_payment := loan_payment.principal_due + loan_payment.interest_due
    match accountDecrement st1 account_id total_payment with
    | .error e => .error e
    | .ok (_, st2) =>
    match vaultIncrement st2 loan.vault_name total_payment with
    | .error e => .error e
    | .ok st3 =>
    match loanDecrement st3 loan.id total_payment with
    | .error e => .error e
    | .ok (loan2, st4) =>
    match paymentSetTransactionIds st4 loan_payment_id ptxn.id itxn.id with
    | .error e => .error e
    | .ok (loan_payment2, st5) =>
      if loan2.balance = 0 then
        match loanSetState st5 loan2.id LoanState.Paid with
        | .error e => .error e
        | .ok (_, st6) => .ok (loan_payment2, st6)
      else
        .ok (loan_payment2, st5)

/-! ### Sample states used to instantiate the theorems -/

def acct1 : Account := { id := 1, user_id := 10, amount := 100 }

def acct2 : Account := { id := 2, user_id := 11, amount := 30 }

def vaultMain : Vault := { name := "main", balance := 500 }

def sampleState : BankState :=
  { accounts := [acct1, acct2], vaults := [vaultMain], bank_transactions := [],
    account_transactions := [], loans := [], loan_payments := [], next_id := 100 }

/-- Like `sampleState` but with no vault rows, so any vault repository call
fails with `RecordNotFound`. -/
def noVaultState : BankState :=
  { accounts := [acct1, acct2], vaults := [], bank_transactions := [],
    account_transactions := [], loans := [], loan_payments := [], next_id := 100 }

/-- The example loan of spec §8: principal 1200.00, annual rate 12 %,
monthly payments, issued 2024-01-01, maturing 2024-12-01.  Dates are
encoded as (year·12 + month, day). -/
def loan1200 : Loan :=
  { id := 5, user_id := 10, vault_name := "main", orig_principal := 1200,
    balance := 1200, accrued_interest := 0, interest_rate := 12/100,
    payment_frequency := 1, issue_date := { months := 24289, day := 1 },
    maturity_date := { months := 24300, day := 1 }, state := .Active }

def loanState : BankState :=
  { accounts := [acct1, acct2], vaults := [vaultMain], bank_transactions := [],
    account_transactions := [], loans := [loan1200], loan_payments := [],
    next_id := 100 }

/-- Account with ample funds, used as the borrower in loan-payment examples. -/
def acct3 : Account := { id := 3, user_id := 10, amount := 1000 }

/-- Loan with a remaining balance of 110, exactly covered by the payment
below (principal 100, interest 10). -/
def payLoan : Loan :=
  { id := 7, user_id := 10, vault_name := "main", orig_principal := 1200,
    balance := 110, accrued_interest := 12, interest_rate := 12/100,
    payment_frequency := 1, issue_date := { months := 24289, day := 1 },
    maturity_date := { months := 24300, day := 1 }, state := .Active }

def payPayment : LoanPayment :=
  { id := 3, loan_id := 7, principal_due := 100, interest_due := 10,
    due_date := { months := 24290, day := 1 },
    principal_transaction_id := none, interest_transaction_id := none }

def payState : BankState :=
  { accounts := [acct1, acct3], vaults := [vaultMain], bank_transactions := [],
    account_transactions := [], loans := [payLoan], loan_payments := [payPayment],
    next_id := 100 }

/-- Loan owing only 5, strictly less than the 110 due on its payment. -/
def negLoan : Loan := { payLoan with balance := 5 }

def negState : BankState := { payState with loans := [negLoan] }

/-- The due date computed by `create_next_loan_payment` (service.rs:151-159):
the last paid payment's due date when one exists, otherwise the loan's issue
date, advanced by `payment_frequency` months. -/
def nextDueDate (st : BankState) (loan : Loan) : Date :=
  match find_last_paid st loan.id with
  | some prev => prev.due_date.incrementByMonths loan.payment_frequency
  | none => loan.issue_date.incrementByMonths loan.payment_frequency

/-- The row persisted by a successful `create_next_loan_payment`
(service.rs:166-174). -/
def newPaymentOf (principalDue : Loan → Date → Money) (today : Date)
    (st : BankState) (loan : Loan) : LoanPayment :=
  { id := st.next_id, loan_id := loan.id,
    principal_due := principalDue loan today,
    interest_due := loan.accrued_interest,
    due_date := nextDueDate st loan,
    principal_transaction_id := none, interest_transaction_id := none }

/-- A sample amortization formula, standing in for the external
`Loan::principal_due` capability in concrete instantiations. -/
def pdSample : Loan → Date → Money := fun _ _ => 100

def dSample : Date := { months := 24295, day := 15 }

/-- A settled payment on loan 5 due 2024-12-01 (the maturity date), so the
next schedule slot would fall past maturity. -/
def paidPayment : LoanPayment :=
  { id := 4, loan_id := 5, principal_due := 100, interest_due := 12,
    due_date := { months := 24300, day := 1 },
    principal_transaction_id := some 50, interest_transaction_id := some 51 }

def loanStateFull : BankState :=
  { loanState with loan_payments := [paidPayment] }

/-- First `get_next_loan_payment` call on `loanState` creates this payment:
due 2024-02-01, principal from `pdSample`, interest from the loan's current
(zero) accrual. -/
def npFirst : LoanPayment :=
  { id := 100, loan_id := 5, principal_due := 100, interest_due := 0,
    due_date := { months := 24290, day := 1 },
    principal_transaction_id := none, interest_transaction_id := none }

def gnState1 : BankState :=
  { accounts := [acct1, acct2], vaults := [vaultMain], bank_transactions := [],
    account_transactions := [], loans := [loan1200], loan_payments := [npFirst],
    next_id := 101 }

/-- A different amortization value for the second call. -/
def pdSample2 : Loan → Date → Money := fun _ _ => 90

/-- The loan as passed to the second call, after some interest accrued. -/
def loanAccrued : Loan := { loan1200 with accrued_interest := 12 }

/-- Second call refreshes only the dues: same id and same due date. -/
def lpSecond : LoanPayment :=
  { id := 100, loan_id := 5, principal_due := 90, interest_due := 12,
    due_date := { months := 24290, day := 1 },
    principal_transaction_id := none, interest_transaction_id := none }

def gnState2 : BankState :=
  { gnState1 with loan_payments := [lpSecond] }

/-- Signed vault delta of a bank transaction: `Deposit`,
`PrincipalRepayment` and `InterestRepayment` move money into the vault,
`Withdraw` moves it out (service.rs:64-103, 204-247). -/
def txnDelta (t : BankTransaction) : Money :=
  match t.transaction_type with
  | .Withdraw => -t.amount
  | _ => t.amount

/-- Sum of the deltas of the transactions recorded against vault `n`. -/
def sumDeltas (l : List BankTransaction) (n : String) : Money :=
  ((l.filter (fun t => t.vault_name == n)).map txnDelta).sum

def vaultTxnSum (st : BankState) (n : String) : Money :=
  sumDeltas st.bank_transactions n

/-- Balance of the named vault (0 when no such vault exists). -/
def vaultBalanceOf (st : BankState) (n : String) : Money :=
  match findVault st n with
  | some v => v.balance
  | none => 0

/-- The service operations that record `BankTransaction` audit rows. -/
inductive AuditedOp where
  | depositOp (account_id : Id) (vault_name : String) (amount : Money)
  | withdrawOp (account_id : Id) (vault_name : String) (amount : Money)
  | sendFundsOp (sender_id receiver_id : Id) (amount : Money)
  | payLoanPaymentDueOp (payment_id account_id : Id)

/-- Run one service operation, keeping the pre-state when it fails (the
unit of work rolls back). -/
def runOp (st : BankState) (op : AuditedOp) : BankState :=
  match op with
  | .depositOp a nm amt => stateAfter st (deposit st a nm amt)
  | .withdrawOp a nm amt => stateAfter st (withdraw st a nm amt)
  | .sendFundsOp s r amt => stateAfter st (send_funds st s r amt)
  | .payLoanPaymentDueOp p a => stateAfter st (pay_loan_payment_due st p a)

def runOps (st : BankState) (ops : List AuditedOp) : BankState :=
  ops.foldl runOp st

/-! ### Generic lemmas about `List.find?` after an id-targeted update

Every repository mutation is a `List.map` that rewrites exactly the rows
matched by a boolean key predicate; these lemmas describe `find?` on the
mapped list. -/

theorem find?_map_ite {α : Type} (q r : α → Bool) (f : α → α)
    (hr : ∀ x, r (f x) = r x) (l : List α) :
    (l.map (fun b => if q b then f b else b)).find? r
      = (l.find? r).map (fun b => if q b then f b else b) := by
  induction l with
  | nil => rfl
  | cons a t ih =>
    simp only [List.map_cons, List.find?_cons]
    by_cases hqa : q a
    · by_cases hra : r a
      · simp [hqa, hra, hr a]
      · simp [hqa, hra, hr a, ih]
    · by_cases hra : r a
      · simp [hqa, hra]
      · simp [hqa, hra, ih]

theorem findAccount_id {st : BankState} {i : Id} {a : Account}
    (h : findAccount st i = some a) : a.id = i := by
  simpa using List.find?_some h

theorem findVault_name {st : BankState} {n : String} {v : Vault}
    (h : findVault st n = some v) : v.name = n := by
  simpa using List.find?_some h

theorem findLoan_id {st : BankState} {i : Id} {l : Loan}
    (h : findLoan st i = some l) : l.id = i := by
  simpa using List.find?_some h

theorem findPaymentById_id {st : BankState} {i : Id} {p : LoanPayment}
    (h : findPaymentById st i = some p) : p.id = i := by
  simpa using List.find?_some h

/-! ### Claim theorems -/

/-- C4: `withdraw(account_id, vault_name, amount)` with `amount` above the
account balance fails with `InadequateFunds` before any write — the
resulting state is the initial state, so account and vault balances are
unchanged and no `BankTransaction` is created; and whenever
`amount ≤ balance` (equality included) the `InadequateFunds` check passes,
i.e. the call never returns that error. -/
theorem withdraw_inadequate_funds_check (st : BankState) (account_id : Id)
    (vault_name : String) (amount : Money) (a : Account)
    (ha : findAccount st account_id = some a) :
    (a.amount < amount →
      withdraw st account_id vault_name amount = .error .InadequateFunds
      ∧ stateAfter st (withdraw st account_id vault_name amount) = st)
    ∧ (amount ≤ a.amount →
      withdraw st account_id vault_name amount ≠ .error .InadequateFunds) := by
  constructor
  · intro hlt
    constructor
    · simp [withdraw, ha, hlt]
    · simp [withdraw, ha, hlt, stateAfter]
  · intro hle
    have hnlt : ¬ a.amount < amount := not_lt.mpr hle
    simp only [withdraw, ha, if_neg hnlt]
    cases hws : withdrawScope st account_id vault_name amount with
    | ok v =>
      cases v
      simp
    | error e =>
      simp

/-- Witness for C4 at a concrete state: account 1 holds 100, so withdrawing
150 fails with `InadequateFunds` and withdrawing 100 does not. -/
theorem withdraw_inadequate_funds_check_witness :
    withdraw sampleState 1 ("main") 150 = .error .InadequateFunds
    ∧ withdraw sampleState 1 ("main") 100 ≠ .error .InadequateFunds := by
  have h150 := withdraw_inadequate_funds_check sampleState 1 ("main") 150 acct1
    (by decide)
  have h100 := withdraw_inadequate_funds_check sampleState 1 ("main") 100 acct1
    (by decide)
  exact ⟨(h150.1 (by decide)).1, h100.2 (by decide)⟩

/-- C3 (evidence of the code bug): at a state where account 1 exists with a
sufficient balance but the vault does not exist, the repository call
decrementing the vault inside the transactional scope of `withdraw` fails
with `RecordNotFound`; the scope is rolled back, but `withdraw` discards
the transaction result (service.rs:88-100 ends in `;`) and still returns
`Ok` with the stale pre-transaction account instead of propagating the
error. -/
theorem withdraw_swallows_scope_error :
    withdrawScope noVaultState 1 ("main") 50 = .error .RecordNotFound
    ∧ withdraw noVaultState 1 ("main") 50 = .ok (acct1, noVaultState) := by
  constructor
  · rfl
  · rfl

/-- C8: `accrue(loan)` computes accrued_interest =
balance × (annual rate / 12) exactly, persists it on the loan row, and
returns the updated loan. -/
theorem accrue_spec (st : BankState) (loan l0 : Loan)
    (h : findLoan st loan.id = some l0) :
    accrue st loan = .ok
      ({ l0 with accrued_interest := loan.balance * (loan.interest_rate / 12) },
       { st with loans := st.loans.map (fun m =>
          if m.id == loan.id then
            { m with accrued_interest := loan.balance * (loan.interest_rate / 12) }
          else m) }) := by
  simp [accrue, loanSetAccruedInterest, h, mul_div_assoc]

/-- Witness for C8 at the spec's example: balance 1200.00 at annual rate
12 % accrues exactly 12.00. -/
theorem accrue_spec_witness :
    accrue loanState loan1200 =
      .ok ({ loan1200 with accrued_interest := 12 },
           { loanState with loans := [{ loan1200 with accrued_interest := 12 }] }) := by
  have h12 : loan1200.balance * (loan1200.interest_rate / 12) = 12 := by
    norm_num [loan1200]
  have h := accrue_spec loanState loan1200 loan1200 (by rfl)
  rw [h12] at h
  exact h

/-- Full postcondition of a successful `pay_loan_payment_due` call: shared
helper describing the returned payment, the updated loan row (balance
reduced by principal_due + interest_due, state set to `Paid` exactly when
the new balance is zero), the decremented account, the incremented vault,
the stamped payment row and the two appended bank transactions. -/
theorem pay_spec_aux (st : BankState) (pid aid : Id)
    (lp : LoanPayment) (loan : Loan) (acct : Account) (v : Vault)
    (hlp : findPaymentById st pid = some lp)
    (hloan : findLoan st lp.loan_id = some loan)
    (hacct : findAccount st aid = some acct)
    (hv : findVault st loan.vault_name = some v) :
    ∃ st5 : BankState,
      pay_loan_payment_due st pid aid =
        .ok ({ lp with principal_transaction_id := some st.next_id,
                       interest_transaction_id := some (st.next_id + 1) }, st5)
      ∧ findLoan st5 lp.loan_id =
          some { loan with
            balance := loan.balance - (lp.principal_due + lp.interest_due),
            state := if loan.balance - (lp.principal_due + lp.interest_due) = 0
                     then LoanState.Paid else loan.state }
      ∧ findAccount st5 aid =
          some { acct with amount := acct.amount - (lp.principal_due + lp.interest_due) }
      ∧ findVault st5 loan.vault_name =
          some { v with balance := v.balance + (lp.principal_due + lp.interest_due) }
      ∧ findPaymentById st5 pid =
          some { lp with principal_transaction_id := some st.next_id,
                         interest_transaction_id := some (st.next_id + 1) }
      ∧ st5.bank_transactions = st.bank_transactions ++
          [{ id := st.next_id, account_id := aid, vault_name := loan.vault_name,
             transaction_type := .PrincipalRepayment, amount := lp.principal_due },
           { id := st.next_id + 1, account_id := aid, vault_name := loan.vault_name,
             transaction_type := .InterestRepayment, amount := lp.interest_due }]
      ∧ st5.vaults = st.vaults.map (fun w =>
          if w.name == loan.vault_name then
            { w with balance := w.balance + (lp.principal_due + lp.interest_due) }
          else w) := by
  have hid : loan.id = lp.loan_id := findLoan_id hloan
  have hlp0 : st.loan_payments.find? (fun p => p.id == pid) = some lp := hlp
  have hloan0 : st.loans.find? (fun l => l.id == lp.loan_id) = some loan := hloan
  have hacct0 : st.accounts.find? (fun a => a.id == aid) = some acct := hacct
  have hv0 : st.vaults.find? (fun w => w.name == loan.vault_name) = some v := hv
  have hloan1 : st.loans.find? (fun l => l.id == loan.id) = some loan := by
    rw [hid]; exact hloan0
  have hdec : (st.loans.map (fun m =>
        if m.id == loan.id then
          { m with balance := m.balance - (lp.principal_due + lp.interest_due) }
        else m)).find? (fun l => l.id == loan.id)
      = some { loan with balance := loan.balance - (lp.principal_due + lp.interest_due) } := by
    have h := find?_map_ite (fun m => m.id == loan.id) (fun l => l.id == loan.id)
      (fun m => { m with balance := m.balance - (lp.principal_due + lp.interest_due) })
      (fun x => rfl) st.loans
    rw [hloan1] at h
    simpa using h
  have hdec2 : (st.loans.map (fun m =>
        if m.id == loan.id then
          { m with balance := m.balance - (lp.principal_due + lp.interest_due) }
        else m)).find? (fun l => l.id == lp.loan_id)
      = some { loan with balance := loan.balance - (lp.principal_due + lp.interest_due) } := by
    rw [← hid]; exact hdec
  have hsetst : ((st.loans.map (fun m =>
        if m.id == loan.id then
          { m with balance := m.balance - (lp.principal_due + lp.interest_due) }
        else m)).map (fun m =>
        if m.id == loan.id then { m with state := LoanState.Paid } else m)).find?
          (fun l => l.id == lp.loan_id)
      = some { loan with
          balance := loan.balance - (lp.principal_due + lp.interest_due),
          state := LoanState.Paid } := by
    have h := find?_map_ite (fun m => m.id == loan.id) (fun l => l.id == lp.loan_id)
      (fun m => { m with state := LoanState.Paid }) (fun x => rfl)
      (st.loans.map (fun m =>
        if m.id == loan.id then
          { m with balance := m.balance - (lp.principal_due + lp.interest_due) }
        else m))
    rw [hdec2] at h
    simpa using h
  have hacct2 : (st.accounts.map (fun b =>
        if b.id == aid then
          { b with amount := b.amount - (lp.principal_due + lp.interest_due) }
        else b)).find? (fun a => a.id == aid)
      = some { acct with amount := acct.amount - (lp.principal_due + lp.interest_due) } := by
    have h := find?_map_ite (fun b => b.id == aid) (fun a => a.id == aid)
      (fun b => { b with amount := b.amount - (lp.principal_due + lp.interest_due) })
      (fun x => rfl) st.accounts
    rw [hacct0] at h
    simpa [findAccount_id hacct] using h
  have hv2 : (st.vaults.map (fun w =>
        if w.name == loan.vault_name then
          { w with balance := w.balance + (lp.principal_due + lp.interest_due) }
        else w)).find? (fun w => w.name == loan.vault_name)
      = some { v with balance := v.balance + (lp.principal_due + lp.interest_due) } := by
    have h := find?_map_ite (fun w => w.name == loan.vault_name)
      (fun w => w.name == loan.vault_name)
      (fun w => { w with balance := w.balance + (lp.principal_due + lp.interest_due) })
      (fun x => rfl) st.vaults
    rw [hv0] at h
    simpa [findVault_name hv] using h
  have hlp2 : (st.loan_payments.map (fun q =>
        if q.id == pid then
          { q with principal_transaction_id := some st.next_id,
                   interest_transaction_id := some (st.next_id + 1) }
        else q)).find? (fun p => p.id == pid)
      = some { lp with principal_transaction_id := some st.next_id,
                       interest_transaction_id := some (st.next_id + 1) } := by
    have h := find?_map_ite (fun q => q.id == pid) (fun p => p.id == pid)
      (fun q => { q with principal_transaction_id := some st.next_id,
                         interest_transaction_id := some (st.next_id + 1) })
      (fun x => rfl) st.loan_payments
    rw [hlp0] at h
    simpa [findPaymentById_id hlp] using h
  by_cases h0 : loan.balance - (lp.principal_due + lp.interest_due) = 0
  · refine ⟨{ st with
        accounts := st.accounts.map (fun b =>
          if b.id == aid then
            { b with amount := b.amount - (lp.principal_due + lp.interest_due) }
          else b),
        vaults := st.vaults.map (fun w =>
          if w.name == loan.vault_name then
            { w with balance := w.balance + (lp.principal_due + lp.interest_due) }
          else w),
        bank_transactions := st.bank_transactions ++
          [{ id := st.next_id, account_id := aid, vault_name := loan.vault_name,
             transaction_type := .PrincipalRepayment, amount := lp.principal_due },
           { id := st.next_id + 1, account_id := aid, vault_name := loan.vault_name,
             transaction_type := .InterestRepayment, amount := lp.interest_due }],
        loans := (st.loans.map (fun m =>
          if m.id == loan.id then
            { m with balance := m.balance - (lp.principal_due + lp.interest_due) }
          else m)).map (fun m =>
          if m.id == loan.id then { m with state := LoanState.Paid } else m),
        loan_payments := st.loan_payments.map (fun q =>
          if q.id == pid then
            { q with principal_transaction_id := some st.next_id,
                     interest_transaction_id := some (st.next_id + 1) }
          else q),
        next_id := st.next_id + 2 }, ?_, ?_, ?_, ?_, ?_, ?_, ?_⟩
    · simp only [pay_loan_payment_due, findPaymentById, findLoan, findAccount, findVault,
        accountDecrement, vaultIncrement, loanDecrement, paymentSetTransactionIds,
        loanSetState, hlp0, hloan0, hacct0, hv0, hloan1, hdec, h0]
      simp [h0]
    · simp only [findLoan, hsetst, h0]
      simp
    · simp only [findAccount]
      have h := find?_map_ite (fun b => b.id == aid) (fun a => a.id == aid)
        (fun b => { b with amount := b.amount - (lp.principal_due + lp.interest_due) })
        (fun x => rfl) st.accounts
      exact hacct2
    · simp only [findVault]
      exact hv2
    · simp only [findPaymentById]
      exact hlp2
    · rfl
    · rfl
  · refine ⟨{ st with
        accounts := st.accounts.map (fun b =>
          if b.id == aid then
            { b with amount := b.amount - (lp.principal_due + lp.interest_due) }
          else b),
        vaults := st.vaults.map (fun w =>
          if w.name == loan.vault_name then
            { w with balance := w.balance + (lp.principal_due + lp.interest_due) }
          else w),
        bank_transactions := st.bank_transactions ++
          [{ id := st.next_id, account_id := aid, vault_name := loan.vault_name,
             transaction_type := .PrincipalRepayment, amount := lp.principal_due },
           { id := st.next_id + 1, account_id := aid, vault_name := loan.vault_name,
             transaction_type := .InterestRepayment, amount := lp.interest_due }],
        loans := st.loans.map (fun m =>
          if m.id == loan.id then
            { m with balance := m.balance - (lp.principal_due + lp.interest_due) }
          else m),
        loan_payments := st.loan_payments.map (fun q =>
          if q.id == pid then
            { q with principal_transaction_id := some st.next_id,
                     interest_transaction_id := some (st.next_id + 1) }
          else q),
        next_id := st.next_id + 2 }, ?_, ?_, ?_, ?_, ?_, ?_, ?_⟩
    · simp only [pay_loan_payment_due, findPaymentById, findLoan, findAccount, findVault,
        accountDecrement, vaultIncrement, loanDecrement, paymentSetTransactionIds,
        loanSetState, hlp0, hloan0, hacct0, hv0, hloan1, hdec]
      simp [h0]
    · simp only [findLoan, hdec2, h0]
      simp
    · simp only [findAccount]
      exact hacct2
    · simp only [findVault]
      exact hv2
    · simp only [findPaymentById]
      exact hlp2
    · rfl
    · rfl

/-- C1: a successful `pay_loan_payment_due(payment_id, account_id)` reduces
the loan balance by exactly principal_due + interest_due, decrements the
paying account and increments the loan's vault by that same total, creates
a `PrincipalRepayment` transaction for principal_due and an
`InterestRepayment` transaction for interest_due, stamps the payment with
both transaction ids, and (from an `Active` loan) the state becomes `Paid`
if and only if the resulting balance is exactly zero. -/
theorem pay_loan_payment_due_spec (st : BankState) (pid aid : Id)
    (lp : LoanPayment) (loan : Loan) (acct : Account) (v : Vault)
    (hlp : findPaymentById st pid = some lp)
    (hloan : findLoan st lp.loan_id = some loan)
    (hacct : findAccount st aid = some acct)
    (hv : findVault st loan.vault_name = some v) :
    ∃ st5 : BankState,
      pay_loan_payment_due st pid aid =
        .ok ({ lp with principal_transaction_id := some st.next_id,
                       interest_transaction_id := some (st.next_id + 1) }, st5)
      ∧ findLoan st5 lp.loan_id =
          some { loan with
            balance := loan.balance - (lp.principal_due + lp.interest_due),
            state := if loan.balance - (lp.principal_due + lp.interest_due) = 0
                     then LoanState.Paid else loan.state }
      ∧ (loan.state = LoanState.Active →
          ((if loan.balance - (lp.principal_due + lp.interest_due) = 0
            then LoanState.Paid else loan.state) = LoanState.Paid
           ↔ loan.balance - (lp.principal_due + lp.interest_due) = 0))
      ∧ findAccount st5 aid =
          some { acct with amount := acct.amount - (lp.principal_due + lp.interest_due) }
      ∧ findVault st5 loan.vault_name =
          some { v with balance := v.balance + (lp.principal_due + lp.interest_due) }
      ∧ findPaymentById st5 pid =
          some { lp with principal_transaction_id := some st.next_id,
                         interest_transaction_id := some (st.next_id + 1) }
      ∧ st5.bank_transactions = st.bank_transactions ++
          [{ id := st.next_id, account_id := aid, vault_name := loan.vault_name,
             transaction_type := .PrincipalRepayment, amount := lp.principal_due },
           { id := st.next_id + 1, account_id := aid, vault_name := loan.vault_name,
             transaction_type := .InterestRepayment, amount := lp.interest_due }] := by
  obtain ⟨st5, h1, h2, h3, h4, h5, h6, h7⟩ :=
    pay_spec_aux st pid aid lp loan acct v hlp hloan hacct hv
  refine ⟨st5, h1, h2, ?_, h3, h4, h5, h6⟩
  intro hact
  by_cases h0 : loan.balance - (lp.principal_due + lp.interest_due) = 0
  · simp [h0]
  · simp [h0, hact]

/-- Witness for C1: paying the 100 + 10 payment from account 3 drives the
loan of balance 110 to exactly zero, so its state becomes `Paid`. -/
theorem pay_loan_payment_due_spec_witness :
    (pay_loan_payment_due payState 3 3).isOk = true
    ∧ findLoan (stateAfter payState (pay_loan_payment_due payState 3 3)) 7 =
        some { payLoan with balance := 0, state := LoanState.Paid } := by
  obtain ⟨st5, h1, h2, h3, h4, h5, h6, h7⟩ :=
    pay_loan_payment_due_spec payState 3 3 payPayment payLoan acct3 vaultMain
      rfl rfl rfl rfl
  have hz : payLoan.balance - (payPayment.principal_due + payPayment.interest_due)
      = 0 := by norm_num [payLoan, payPayment]
  rw [hz] at h2
  constructor
  · rw [h1]
    rfl
  · rw [h1]
    simp only [stateAfter]
    simpa using h2

/-- C10: `pay_loan_payment_due` performs no sufficiency check on the paying
account: even when the account balance is strictly below
principal_due + interest_due the call never fails with `InadequateFunds`;
it loads the account, ignores its balance, and decrements it by the full
total due. -/
theorem pay_no_sufficiency_check (st : BankState) (pid aid : Id)
    (lp : LoanPayment) (loan : Loan) (acct : Account) (v : Vault)
    (hlp : findPaymentById st pid = some lp)
    (hloan : findLoan st lp.loan_id = some loan)
    (hacct : findAccount st aid = some acct)
    (hv : findVault st loan.vault_name = some v)
    (hpoor : acct.amount < lp.principal_due + lp.interest_due) :
    pay_loan_payment_due st pid aid ≠ .error ErrorKind.InadequateFunds
    ∧ ∃ st5 : BankState,
        pay_loan_payment_due st pid aid =
          .ok ({ lp with principal_transaction_id := some st.next_id,
                         interest_transaction_id := some (st.next_id + 1) }, st5)
        ∧ findAccount st5 aid =
            some { acct with
              amount := acct.amount - (lp.principal_due + lp.interest_due) } := by
  obtain ⟨st5, h1, h2, h3, h4, h5, h6, h7⟩ :=
    pay_spec_aux st pid aid lp loan acct v hlp hloan hacct hv
  refine ⟨?_, st5, h1, h3⟩
  rw [h1]
  simp

/-- Witness for C10: account 1 holds 100, strictly less than the 110 due,
yet the payment does not fail with `InadequateFunds`. -/
theorem pay_no_sufficiency_check_witness :
    acct1.amount < payPayment.principal_due + payPayment.interest_due
    ∧ pay_loan_payment_due payState 3 1 ≠ .error ErrorKind.InadequateFunds := by
  have hpoor : acct1.amount < payPayment.principal_due + payPayment.interest_due := by
    norm_num [acct1, payPayment]
  have h := pay_no_sufficiency_check payState 3 1 payPayment payLoan acct1 vaultMain
    rfl rfl rfl rfl hpoor
  exact ⟨hpoor, h.1⟩

/-- C9 (evidence of the code bug): paying the 100 + 10 payment on a loan
whose remaining balance is only 5 succeeds and leaves the loan balance at
-105 < 0 — the non-negativity invariant is violated — and because the
balance skipped zero the loan also stays `Active` forever (the
`Active → Paid` transition fires only on an exact zero). -/
theorem loan_balance_goes_negative :
    (pay_loan_payment_due negState 3 3).isOk = true
    ∧ findLoan (stateAfter negState (pay_loan_payment_due negState 3 3)) 7 =
        some { negLoan with balance := -105 }
    ∧ (-105 : Money) < 0
    ∧ ({ negLoan with balance := -105 } : Loan).state = LoanState.Active := by
  obtain ⟨st5, h1, h2, h3, h4, h5, h6, h7⟩ :=
    pay_spec_aux negState 3 3 payPayment negLoan acct3 vaultMain rfl rfl rfl rfl
  have hz : negLoan.balance - (payPayment.principal_due + payPayment.interest_due)
      = -105 := by norm_num [negLoan, payLoan, payPayment]
  have hnz : ¬ negLoan.balance - (payPayment.principal_due + payPayment.interest_due)
      = 0 := by rw [hz]; norm_num
  rw [if_neg hnz, hz] at h2
  refine ⟨by rw [h1]; rfl, ?_, by norm_num, rfl⟩
  rw [h1]
  simp only [stateAfter]
  simpa using h2

/-- C7: for `send_funds(sender_id, receiver_id, amount)` between two
distinct accounts, when `amount ≤ sender.balance` the call succeeds: the
sender is decremented and the receiver incremented by `amount`, the sum of
the two balances is conserved, and exactly one `AccountTransaction`
recording sender, receiver and amount is appended; when
`amount > sender.balance` it fails with `InadequateFunds` (and, the error
carrying no state, no write occurs). -/
theorem send_funds_spec (st : BankState) (sender_id receiver_id : Id)
    (amount : Money) (s r : Account)
    (hs : findAccount st sender_id = some s)
    (hr : findAccount st receiver_id = some r)
    (hne : sender_id ≠ receiver_id) :
    (amount ≤ s.amount →
      ∃ st3 : BankState,
        send_funds st sender_id receiver_id amount =
          .ok ({ id := st.next_id, sender_id := sender_id,
                 receiver_id := receiver_id, amount := amount }, st3)
        ∧ findAccount st3 sender_id = some { s with amount := s.amount - amount }
        ∧ findAccount st3 receiver_id = some { r with amount := r.amount + amount }
        ∧ (s.amount - amount) + (r.amount + amount) = s.amount + r.amount
        ∧ st3.account_transactions = st.account_transactions ++
            [{ id := st.next_id, sender_id := sender_id,
               receiver_id := receiver_id, amount := amount }])
    ∧ (s.amount < amount →
        send_funds st sender_id receiver_id amount = .error .InadequateFunds
        ∧ stateAfter st (send_funds st sender_id receiver_id amount) = st) := by
  have hs0 : st.accounts.find? (fun a => a.id == sender_id) = some s := hs
  have hr0 : st.accounts.find? (fun a => a.id == receiver_id) = some r := hr
  have hsid : s.id = sender_id := findAccount_id hs
  have hrid : r.id = receiver_id := findAccount_id hr
  constructor
  · intro hle
    have hnlt : ¬ s.amount < amount := not_lt.mpr hle
    have hs2 : (st.accounts.map (fun b =>
          if b.id == receiver_id then { b with amount := b.amount + amount }
          else b)).find? (fun a => a.id == sender_id) = some s := by
      have h := find?_map_ite (fun b => b.id == receiver_id)
        (fun a => a.id == sender_id)
        (fun b => { b with amount := b.amount + amount }) (fun x => rfl) st.accounts
      rw [hs0] at h
      simpa [hsid, hne] using h
    have hs3 : ((st.accounts.map (fun b =>
          if b.id == receiver_id then { b with amount := b.amount + amount }
          else b)).map (fun b =>
          if b.id == sender_id then { b with amount := b.amount - amount }
          else b)).find? (fun a => a.id == sender_id)
        = some { s with amount := s.amount - amount } := by
      have h := find?_map_ite (fun b => b.id == sender_id)
        (fun a => a.id == sender_id)
        (fun b => { b with amount := b.amount - amount }) (fun x => rfl)
        (st.accounts.map (fun b =>
          if b.id == receiver_id then { b with amount := b.amount + amount } else b))
      rw [hs2] at h
      simpa [hsid] using h
    have hr2 : (st.accounts.map (fun b =>
          if b.id == receiver_id then { b with amount := b.amount + amount }
          else b)).find? (fun a => a.id == receiver_id)
        = some { r with amount := r.amount + amount } := by
      have h := find?_map_ite (fun b => b.id == receiver_id)
        (fun a => a.id == receiver_id)
        (fun b => { b with amount := b.amount + amount }) (fun x => rfl) st.accounts
      rw [hr0] at h
      simpa [hrid] using h
    have hr3 : ((st.accounts.map (fun b =>
          if b.id == receiver_id then { b with amount := b.amount + amount }
          else b)).map (fun b =>
          if b.id == sender_id then { b with amount := b.amount - amount }
          else b)).find? (fun a => a.id == receiver_id)
        = some { r with amount := r.amount + amount } := by
      have h := find?_map_ite (fun b => b.id == sender_id)
        (fun a => a.id == receiver_id)
        (fun b => { b with amount := b.amount - amount }) (fun x => rfl)
        (st.accounts.map (fun b =>
          if b.id == receiver_id then { b with amount := b.amount + amount } else b))
      rw [hr2] at h
      simpa [hrid, Ne.symm hne] using h
    refine ⟨{ st with
        accounts := (st.accounts.map (fun b =>
          if b.id == receiver_id then { b with amount := b.amount + amount }
          else b)).map (fun b =>
          if b.id == sender_id then { b with amount := b.amount - amount }
          else b),
        account_transactions := st.account_transactions ++
          [{ id := st.next_id, sender_id := sender_id,
             receiver_id := receiver_id, amount := amount }],
        next_id := st.next_id + 1 }, ?_, ?_, ?_, ?_, ?_⟩
    · simp only [send_funds, findAccount, accountIncrement, accountDecrement,
        hs0, hr0, hs2, hnlt]
      simp
    · simp only [findAccount]
      exact hs3
    · simp only [findAccount]
      exact hr3
    · ring
    · rfl
  · intro hlt
    constructor
    · simp [send_funds, hs, hlt]
    · simp [send_funds, hs, hlt, stateAfter]

/-- Witness for C7: sending 40 from account 1 (balance 100) to account 2
(balance 30) succeeds and conserves the total, while sending 200 fails with
`InadequateFunds`. -/
theorem send_funds_spec_witness :
    (send_funds sampleState 1 2 40).isOk = true
    ∧ send_funds sampleState 1 2 200 = .error .InadequateFunds := by
  obtain ⟨h40, _⟩ := send_funds_spec sampleState 1 2 40 acct1 acct2 rfl rfl
    (by decide)
  obtain ⟨_, h200⟩ := send_funds_spec sampleState 1 2 200 acct1 acct2 rfl rfl
    (by decide)
  obtain ⟨st3, heq, _⟩ := h40 (by norm_num [acct1])
  refine ⟨?_, (h200 (by norm_num [acct1])).1⟩
  rw [heq]
  rfl

/-- Characterization of `create_next_loan_payment`: fails with
`InvalidDate` exactly when the next due date is strictly past maturity,
otherwise appends the new payment row. -/
theorem create_next_aux (principalDue : Loan → Date → Money)
    (today : Date) (st : BankState) (loan : Loan) :
    (Date.ltb loan.maturity_date (nextDueDate st loan) = true →
      create_next_loan_payment principalDue today st loan = .error .InvalidDate)
    ∧ (Date.ltb loan.maturity_date (nextDueDate st loan) = false →
      create_next_loan_payment principalDue today st loan =
        .ok (newPaymentOf principalDue today st loan,
             { st with
               loan_payments := st.loan_payments ++
                 [newPaymentOf principalDue today st loan],
               next_id := st.next_id + 1 })) := by
  cases hprev : find_last_paid st loan.id with
  | none =>
    constructor
    · intro h
      simp only [nextDueDate, hprev] at h
      simp [create_next_loan_payment, hprev, h]
    · intro h
      simp only [nextDueDate, hprev] at h
      simp [create_next_loan_payment, newPaymentOf, nextDueDate, hprev, h]
  | some prev =>
    constructor
    · intro h
      simp only [nextDueDate, hprev] at h
      simp [create_next_loan_payment, hprev, h]
    · intro h
      simp only [nextDueDate, hprev] at h
      simp [create_next_loan_payment, newPaymentOf, nextDueDate, hprev, h]

/-- C5: `create_next_loan_payment` computes the due date as the last paid
payment's due date (else the issue date) advanced by `payment_frequency`
months; it fails with `InvalidDate` exactly when that date is strictly past
the maturity date (equality allowed), and otherwise persists a new
`LoanPayment` carrying that due date, `interest_due` equal to the loan's
current `accrued_interest`, and `principal_due` from the loan's
amortization formula evaluated at the current date. -/
theorem create_next_loan_payment_spec (principalDue : Loan → Date → Money)
    (today : Date) (st : BankState) (loan : Loan) :
    (Date.ltb loan.maturity_date (nextDueDate st loan) = true →
      create_next_loan_payment principalDue today st loan = .error .InvalidDate)
    ∧ (Date.ltb loan.maturity_date (nextDueDate st loan) = false →
      create_next_loan_payment principalDue today st loan =
        .ok (newPaymentOf principalDue today st loan,
             { st with
               loan_payments := st.loan_payments ++
                 [newPaymentOf principalDue today st loan],
               next_id := st.next_id + 1 })) :=
  create_next_aux principalDue today st loan

/-- Witness for C5: with no paid payment the schedule lands at 2024-02-01
(within maturity) and a payment is created; with a paid payment already due
at maturity the next slot exceeds maturity and fails with `InvalidDate`. -/
theorem create_next_loan_payment_spec_witness :
    (create_next_loan_payment pdSample dSample loanState loan1200).isOk = true
    ∧ create_next_loan_payment pdSample dSample loanStateFull loan1200 =
        .error .InvalidDate := by
  obtain ⟨-, hok⟩ :=
    create_next_loan_payment_spec pdSample dSample loanState loan1200
  obtain ⟨herr, -⟩ :=
    create_next_loan_payment_spec pdSample dSample loanStateFull loan1200
  refine ⟨?_, herr (by decide)⟩
  rw [hok (by decide)]
  rfl

/-- `find?` skips a prefix in which it finds nothing. -/
theorem find?_append_none {α : Type} (p : α → Bool) (l1 l2 : List α)
    (h : l1.find? p = none) : (l1 ++ l2).find? p = l2.find? p := by
  rw [List.find?_append, h]
  rfl

/-- C6: two consecutive `get_next_loan_payment` calls with no payment made
in between return payments with the same due date; the second call only
refreshes `principal_due` (recomputed at the current date) and
`interest_due` (the loan's current accrued interest), never the due date.
`loan2` is the loan row passed to the second call (its accrued interest may
have changed in between, its id has not); `hfresh` says the id supply is
fresh for the stored payments. -/
theorem get_next_loan_payment_stable_due_date
    (pd1 pd2 : Loan → Date → Money) (d1 d2 : Date) (st : BankState)
    (loan loan2 : Loan) (lp1 lp2 : LoanPayment) (st1 st2 : BankState)
    (hid : loan2.id = loan.id)
    (hfresh : ∀ p ∈ st.loan_payments, p.id ≠ st.next_id)
    (h1 : get_next_loan_payment pd1 d1 st loan = .ok (lp1, st1))
    (h2 : get_next_loan_payment pd2 d2 st1 loan2 = .ok (lp2, st2)) :
    lp2.due_date = lp1.due_date
    ∧ lp2.principal_due = pd2 loan2 d2
    ∧ lp2.interest_due = loan2.accrued_interest := by
  cases hfind : findPaymentByLoan st loan.id with
  | some lp0 =>
    have hfind0 : st.loan_payments.find? (fun p => p.loan_id == loan.id)
        = some lp0 := hfind
    simp only [get_next_loan_payment, hfind, update_loan_payment,
      paymentSetDues] at h1
    cases hx : findPaymentById st lp0.id with
    | none =>
      rw [hx] at h1
      simp at h1
    | some x =>
      rw [hx] at h1
      simp only [Except.ok.injEq, Prod.mk.injEq] at h1
      obtain ⟨hlp1, hst1⟩ := h1
      have hxid : x.id = lp0.id := findPaymentById_id hx
      have hfind1 : findPaymentByLoan st1 loan2.id = some
          { lp0 with principal_due := pd1 loan d1,
                     interest_due := loan.accrued_interest } := by
        rw [← hst1]
        show (st.loan_payments.map (fun q =>
            if q.id == lp0.id then
              { q with principal_due := pd1 loan d1,
                       interest_due := loan.accrued_interest }
            else q)).find? (fun p => p.loan_id == loan2.id) = _
        have hfind0b : st.loan_payments.find? (fun p => p.loan_id == loan2.id)
            = some lp0 := by rw [hid]; exact hfind0
        have h := find?_map_ite (fun q => q.id == lp0.id)
          (fun p => p.loan_id == loan2.id)
          (fun q => { q with principal_due := pd1 loan d1,
                             interest_due := loan.accrued_interest })
          (fun y => rfl) st.loan_payments
        rw [hfind0b] at h
        simpa using h
      simp only [get_next_loan_payment, hfind1, update_loan_payment,
        paymentSetDues] at h2
      have hx2 : findPaymentById st1 lp0.id = some
          { x with principal_due := pd1 loan d1,
                   interest_due := loan.accrued_interest } := by
        rw [← hst1]
        show (st.loan_payments.map (fun q =>
            if q.id == lp0.id then
              { q with principal_due := pd1 loan d1,
                       interest_due := loan.accrued_interest }
            else q)).find? (fun p => p.id == lp0.id) = _
        have hx0 : st.loan_payments.find? (fun p => p.id == lp0.id)
            = some x := hx
        have h := find?_map_ite (fun q => q.id == lp0.id)
          (fun p => p.id == lp0.id)
          (fun q => { q with principal_due := pd1 loan d1,
                             interest_due := loan.accrued_interest })
          (fun y => rfl) st.loan_payments
        rw [hx0] at h
        simpa [hxid] using h
      rw [hx2] at h2
      simp only [Except.ok.injEq, Prod.mk.injEq] at h2
      obtain ⟨hlp2, -⟩ := h2
      rw [← hlp2, ← hlp1]
      exact ⟨rfl, rfl, rfl⟩
  | none =>
    have hfind0 : st.loan_payments.find? (fun p => p.loan_id == loan.id)
        = none := hfind
    simp only [get_next_loan_payment, hfind] at h1
    obtain ⟨herr, hok⟩ := create_next_aux pd1 d1 st loan
    cases hlt : Date.ltb loan.maturity_date (nextDueDate st loan) with
    | true =>
      rw [herr hlt] at h1
      simp at h1
    | false =>
      rw [hok hlt] at h1
      simp only [Except.ok.injEq, Prod.mk.injEq] at h1
      obtain ⟨hlp1, hst1⟩ := h1
      have hlp1id : lp1.id = st.next_id := by rw [← hlp1]; rfl
      have hlp1lid : lp1.loan_id = loan.id := by rw [← hlp1]; rfl
      have hfind1 : findPaymentByLoan st1 loan2.id = some lp1 := by
        rw [← hst1]
        show (st.loan_payments ++
            [newPaymentOf pd1 d1 st loan]).find?
              (fun p => p.loan_id == loan2.id) = _
        rw [hid, find?_append_none _ _ _ hfind0, hlp1]
        rw [List.find?_cons_of_pos]
        simp [hlp1lid]
      simp only [get_next_loan_payment, hfind1, update_loan_payment,
        paymentSetDues] at h2
      have hx2 : findPaymentById st1 lp1.id = some lp1 := by
        rw [← hst1]
        show (st.loan_payments ++
            [newPaymentOf pd1 d1 st loan]).find? (fun p => p.id == lp1.id) = _
        have hnone : st.loan_payments.find? (fun p => p.id == lp1.id) = none := by
          rw [List.find?_eq_none]
          intro p hp
          simp only [beq_iff_eq]
          rw [hlp1id]
          exact hfresh p hp
        rw [find?_append_none _ _ _ hnone, hlp1]
        rw [List.find?_cons_of_pos]
        simp
      rw [hx2] at h2
      simp only [Except.ok.injEq, Prod.mk.injEq] at h2
      obtain ⟨hlp2, -⟩ := h2
      rw [← hlp2]
      exact ⟨rfl, rfl, rfl⟩

/-- Witness for C6: the first call creates the payment due 2024-02-01; the
second call (different date-dependent principal, freshly accrued interest)
refreshes the dues but returns the very same due date. -/
theorem get_next_loan_payment_stable_due_date_witness :
    lpSecond.due_date = npFirst.due_date
    ∧ lpSecond.principal_due = pdSample2 loanAccrued dSample
    ∧ lpSecond.interest_due = loanAccrued.accrued_interest := by
  refine get_next_loan_payment_stable_due_date pdSample pdSample2 dSample dSample
    loanState loan1200 loanAccrued npFirst lpSecond gnState1 gnState2 rfl ?_ rfl rfl
  intro p hp
  simp [loanState] at hp

/-! ### Vault conservation (C2) -/

theorem sumDeltas_append (l1 l2 : List BankTransaction) (n : String) :
    sumDeltas (l1 ++ l2) n = sumDeltas l1 n + sumDeltas l2 n := by
  simp [sumDeltas, List.filter_append]

/-- Operations that touch neither the vault table nor the bank-transaction
log preserve the conservation quantity. -/
theorem conserves_of_unchanged (st st2 : BankState)
    (hvaults : st2.vaults = st.vaults)
    (htxns : st2.bank_transactions = st.bank_transactions) (n : String) :
    vaultBalanceOf st2 n - vaultTxnSum st2 n
      = vaultBalanceOf st n - vaultTxnSum st n := by
  unfold vaultBalanceOf vaultTxnSum findVault
  rw [hvaults, htxns]

/-- An operation that moves vault `vn` by `d` while appending audit rows
whose delta sum is `d` against `vn` (and 0 against any other vault)
preserves the conservation quantity for every vault. -/
theorem conserves_update (st st2 : BankState) (vn : String) (d : Money)
    (f : Vault → Vault) (L : List BankTransaction) (v : Vault)
    (hfn : ∀ w, (f w).name = w.name)
    (hfb : ∀ w, (f w).balance = w.balance + d)
    (hv : findVault st vn = some v)
    (hvaults : st2.vaults = st.vaults.map (fun w => if w.name == vn then f w else w))
    (htxns : st2.bank_transactions = st.bank_transactions ++ L)
    (hL : ∀ m, sumDeltas L m = if m = vn then d else 0) (n : String) :
    vaultBalanceOf st2 n - vaultTxnSum st2 n
      = vaultBalanceOf st n - vaultTxnSum st n := by
  have hsum : vaultTxnSum st2 n = vaultTxnSum st n + sumDeltas L n := by
    unfold vaultTxnSum
    rw [htxns, sumDeltas_append]
  have hbal : vaultBalanceOf st2 n
      = vaultBalanceOf st n + (if n = vn then d else 0) := by
    unfold vaultBalanceOf findVault
    rw [hvaults]
    have h : (st.vaults.map (fun w => if w.name == vn then f w else w)).find?
        (fun w => w.name == n)
        = (st.vaults.find? (fun w => w.name == n)).map
            (fun w => if w.name == vn then f w else w) :=
      find?_map_ite (fun w => w.name == vn) (fun w => w.name == n) f
        (fun x => by simp [hfn x]) st.vaults
    rw [h]
    by_cases hn : n = vn
    · subst hn
      have hv0 : st.vaults.find? (fun w => w.name == n) = some v := hv
      rw [hv0]
      have hvn : v.name = n := findVault_name hv
      simp [hvn, hfb v]
    · cases hw : st.vaults.find? (fun w => w.name == n) with
      | none => simp [hn]
      | some w =>
        have hwn : w.name = n := by simpa using List.find?_some hw
        have hwvn : ¬ w.name = vn := by rw [hwn]; exact hn
        simp [hwvn, hn]
  rw [hsum, hbal, hL n]
  ring

/-- `deposit` preserves the conservation quantity for every vault: the
`Deposit` audit row matches the vault increment. -/
theorem deposit_conserves (st : BankState) (a : Id) (vn : String)
    (amt : Money) (n : String) :
    vaultBalanceOf (stateAfter st (deposit st a vn amt)) n
      - vaultTxnSum (stateAfter st (deposit st a vn amt)) n
      = vaultBalanceOf st n - vaultTxnSum st n := by
  cases ha : findAccount st a with
  | none =>
    have ha0 : st.accounts.find? (fun x => x.id == a) = none := ha
    simp [stateAfter, deposit, accountIncrement, findAccount, ha0]
  | some acc =>
    have ha0 : st.accounts.find? (fun x => x.id == a) = some acc := ha
    cases hv : findVault st vn with
    | none =>
      have hv0 : st.vaults.find? (fun w => w.name == vn) = none := hv
      simp [stateAfter, deposit, accountIncrement, vaultIncrement,
        findAccount, findVault, ha0, hv0]
    | some v =>
      have hv0 : st.vaults.find? (fun w => w.name == vn) = some v := hv
      simp only [deposit, accountIncrement, vaultIncrement,
        findAccount, findVault, ha0, hv0, stateAfter]
      refine conserves_update st _ vn amt
        (fun w => { w with balance := w.balance + amt })
        [{ id := st.next_id, account_id := a, vault_name := vn,
           transaction_type := BankTransactionType.Deposit, amount := amt }] v
        (fun w => rfl) (fun w => rfl) hv rfl rfl ?_ n
      intro m
      by_cases hm : m = vn
      · simp [sumDeltas, txnDelta, hm]
      · simp [sumDeltas, txnDelta, hm, Ne.symm hm]

/-- `withdraw` preserves the conservation quantity for every vault: on the
success path the `Withdraw` audit row matches the vault decrement, and on
every failure path (including the swallowed transaction error) the state is
unchanged. -/
theorem withdraw_conserves (st : BankState) (a : Id) (vn : String)
    (amt : Money) (n : String) :
    vaultBalanceOf (stateAfter st (withdraw st a vn amt)) n
      - vaultTxnSum (stateAfter st (withdraw st a vn amt)) n
      = vaultBalanceOf st n - vaultTxnSum st n := by
  cases ha : findAccount st a with
  | none =>
    simp [stateAfter, withdraw, ha]
  | some acc =>
    by_cases hlt : acc.amount < amt
    · simp [stateAfter, withdraw, ha, hlt]
    · have ha0 : st.accounts.find? (fun x => x.id == a) = some acc := ha
      cases hv : findVault st vn with
      | none =>
        have hv0 : st.vaults.find? (fun w => w.name == vn) = none := hv
        simp [stateAfter, withdraw, withdrawScope, accountDecrement,
          vaultDecrement, findAccount, findVault, ha, ha0, hv0, hlt]
      | some v =>
        have hv0 : st.vaults.find? (fun w => w.name == vn) = some v := hv
        simp only [withdraw, withdrawScope, accountDecrement, vaultDecrement,
          findAccount, findVault, ha, ha0, hv0, hlt, if_neg, stateAfter]
        refine conserves_update st _ vn (-amt)
          (fun w => { w with balance := w.balance - amt })
          [{ id := st.next_id, account_id := a, vault_name := vn,
             transaction_type := BankTransactionType.Withdraw, amount := amt }] v
          (fun w => rfl) (fun w => sub_eq_add_neg _ _) hv rfl rfl ?_ n
        intro m
        by_cases hm : m = vn
        · simp [sumDeltas, txnDelta, hm]
        · simp [sumDeltas, txnDelta, hm, Ne.symm hm]

/-- `send_funds` touches neither vaults nor bank transactions, so it
preserves the conservation quantity for every vault. -/
theorem send_funds_conserves (st : BankState) (s r : Id) (amt : Money)
    (n : String) :
    vaultBalanceOf (stateAfter st (send_funds st s r amt)) n
      - vaultTxnSum (stateAfter st (send_funds st s r amt)) n
      = vaultBalanceOf st n - vaultTxnSum st n := by
  cases hs : findAccount st s with
  | none =>
    simp only [send_funds, hs, stateAfter]
  | some sa =>
    by_cases hlt : sa.amount < amt
    · simp only [send_funds, hs]
      rw [if_pos hlt]
      simp only [stateAfter]
    · simp only [send_funds, hs]
      rw [if_neg hlt]
      simp only [accountIncrement, accountDecrement, findAccount]
      cases hr : List.find? (fun x => x.id == r) st.accounts with
      | none =>
        simp only [hr, stateAfter]
      | some ra =>
        simp only [hr]
        cases hsnd : List.find? (fun x => x.id == s)
            (st.accounts.map (fun b =>
              if b.id == r then { b with amount := b.amount + amt } else b)) with
        | none =>
          simp only [hsnd, stateAfter]
        | some sb =>
          simp only [hsnd, stateAfter]
          exact conserves_of_unchanged st _ rfl rfl n

/-- `pay_loan_payment_due` preserves the conservation quantity for every
vault: the `PrincipalRepayment` + `InterestRepayment` audit rows sum to
exactly the vault increment. -/
theorem pay_conserves (st : BankState) (pid aid : Id) (n : String) :
    vaultBalanceOf (stateAfter st (pay_loan_payment_due st pid aid)) n
      - vaultTxnSum (stateAfter st (pay_loan_payment_due st pid aid)) n
      = vaultBalanceOf st n - vaultTxnSum st n := by
  cases hlp : findPaymentById st pid with
  | none => simp [stateAfter, pay_loan_payment_due, hlp]
  | some lp =>
  cases hloan : findLoan st lp.loan_id with
  | none => simp [stateAfter, pay_loan_payment_due, hlp, hloan]
  | some loan =>
  cases hacct : findAccount st aid with
  | none => simp [stateAfter, pay_loan_payment_due, hlp, hloan, hacct]
  | some acct =>
  cases hv : findVault st loan.vault_name with
  | none =>
    have hlp0 : st.loan_payments.find? (fun p => p.id == pid) = some lp := hlp
    have hloan0 : st.loans.find? (fun l => l.id == lp.loan_id) = some loan := hloan
    have hacct0 : st.accounts.find? (fun x => x.id == aid) = some acct := hacct
    have hv0 : st.vaults.find? (fun w => w.name == loan.vault_name) = none := hv
    simp [stateAfter, pay_loan_payment_due, accountDecrement, vaultIncrement,
      findAccount, findVault, findPaymentById, findLoan, hlp, hloan,
      hlp0, hloan0, hacct0, hv0]
  | some v =>
    obtain ⟨st5, h1, h2, h3, h4, h5, h6, h7⟩ :=
      pay_spec_aux st pid aid lp loan acct v hlp hloan hacct hv
    rw [h1]
    simp only [stateAfter]
    refine conserves_update st st5 loan.vault_name
      (lp.principal_due + lp.interest_due)
      (fun w => { w with
        balance := w.balance + (lp.principal_due + lp.interest_due) })
      [{ id := st.next_id, account_id := aid, vault_name := loan.vault_name,
         transaction_type := BankTransactionType.PrincipalRepayment,
         amount := lp.principal_due },
       { id := st.next_id + 1, account_id := aid, vault_name := loan.vault_name,
         transaction_type := BankTransactionType.InterestRepayment,
         amount := lp.interest_due }] v
      (fun w => rfl) (fun w => rfl) hv h7 h6 ?_ n
    intro m
    by_cases hm : m = loan.vault_name
    · simp [sumDeltas, txnDelta, hm]
    · simp [sumDeltas, txnDelta, hm, Ne.symm hm]

theorem runOp_conserves (st : BankState) (op : AuditedOp) (n : String) :
    vaultBalanceOf (runOp st op) n - vaultTxnSum (runOp st op) n
      = vaultBalanceOf st n - vaultTxnSum st n := by
  cases op with
  | depositOp a nm amt => exact deposit_conserves st a nm amt n
  | withdrawOp a nm amt => exact withdraw_conserves st a nm amt n
  | sendFundsOp s r amt => exact send_funds_conserves st s r amt n
  | payLoanPaymentDueOp p a => exact pay_conserves st p a n

/-- `disburse_loan` records no `BankTransaction` on any path
(service.rs:131-141 creates none). -/
theorem disburse_no_audit (st : BankState) (loan : Loan) (aid : Id) :
    (stateAfter st (disburse_loan st loan aid)).bank_transactions
      = st.bank_transactions := by
  cases hv : findVault st loan.vault_name with
  | none =>
    simp only [disburse_loan, vaultDecrement, hv, stateAfter]
  | some v =>
    simp only [disburse_loan, vaultDecrement, hv]
    cases ha : List.find? (fun x => x.id == aid) st.accounts with
    | none => simp only [accountIncrement, findAccount, ha, stateAfter]
    | some acc => simp only [accountIncrement, findAccount, ha, stateAfter]

/-- C2 (amended): across every sequence of deposit, withdraw, send_funds
and pay_loan_payment_due operations, each vault's balance change equals the
change of the sum of `BankTransaction` deltas recorded against it; but
`disburse_loan` moves the vault balance while creating no `BankTransaction`
(no audit record), so loan disbursement is excluded from the conservation
invariant. -/
theorem vault_conservation_audited_ops (st : BankState) (ops : List AuditedOp)
    (n : String) :
    (vaultBalanceOf (runOps st ops) n - vaultBalanceOf st n
      = vaultTxnSum (runOps st ops) n - vaultTxnSum st n)
    ∧ ∀ (loan : Loan) (aid : Id),
        (stateAfter st (disburse_loan st loan aid)).bank_transactions
          = st.bank_transactions := by
  constructor
  · induction ops generalizing st with
    | nil => simp [runOps]
    | cons op t ih =>
      have h1 := runOp_conserves st op n
      have h2 := ih (runOp st op)
      simp only [runOps, List.foldl_cons] at h2 ⊢
      linarith
  · intro loan aid
    exact disburse_no_audit st loan aid

/-- C2 counterexample: a successful `disburse_loan` moves the vault balance
by -1200 while recording no `BankTransaction`, so the sum of the recorded
deltas (change 0) does not equal the vault's balance change — the
conservation claim fails for `disburse_loan`, which creates no audit
record. -/
theorem vault_conservation_counterexample :
    (disburse_loan sampleState loan1200 1).isOk = true
    ∧ (stateAfter sampleState
        (disburse_loan sampleState loan1200 1)).bank_transactions = []
    ∧ vaultTxnSum (stateAfter sampleState
        (disburse_loan sampleState loan1200 1)) ("main")
        - vaultTxnSum sampleState ("main") = 0
    ∧ vaultBalanceOf (stateAfter sampleState
        (disburse_loan sampleState loan1200 1)) ("main")
        - vaultBalanceOf sampleState ("main") = -1200
    ∧ (-1200 : Money) ≠ 0 := by
  refine ⟨rfl, rfl, ?_, ?_, by norm_num⟩
  · show (0 : ℚ) - 0 = 0
    norm_num
  · show (vaultMain.balance - loan1200.orig_principal) - vaultMain.balance = -1200
    norm_num [vaultMain, loan1200]

end Bank
